import Mathlib

/-!
Verification of the renpysound audio mixer core (src/module/renpysound_core.c).

Shallow embedding conventions:
* C `float`/`double` values are modelled as rationals (ℚ).
* C `int` is modelled as ℤ; the C `unsigned int` fields of `struct Interpolate`
  are modelled as ℕ, with the int→unsigned conversion made explicit as
  reduction modulo 2^32 (`uint_of_int`).
* C integer division truncates toward zero, modelled by `Int.tdiv`; the C
  float→int conversion also truncates toward zero (`truncToInt`).
* A `struct MediaState *` decoder handle is modelled as the list of PCM chunks
  the decoder will deliver on successive `media_read_audio` calls; a NULL
  pointer becomes `Option.none`.  `char *` names become `Option String`.
* The process-global `audio_spec.freq` is passed explicitly as a `freq`
  parameter to the functions that read it.
* Stateful C functions become pure state transformers on `Channel`.
-/

/-- Model of `struct MediaState`: the remaining decoder output, as the chunks
(lists of stereo frames, each frame a pair of 16-bit samples held in ℤ)
successive `media_read_audio` calls will deliver. -/
abbrev MediaState := List (List (ℤ × ℤ))

/-- The C int→unsigned-int conversion: reduction modulo 2^32
(4294967296 = 2^32, written as a literal so it evaluates by `decide`). -/
def uint_of_int (x : ℤ) : ℕ := (x % (4294967296 : ℤ)).toNat

/-- The C float→int conversion: truncation toward zero. -/
def truncToInt (q : ℚ) : ℤ := if 0 ≤ q then ⌊q⌋ else ⌈q⌉

/-- `struct Interpolate`: `done` and `duration` are `unsigned int` (ℕ),
`start` and `end` are floats (ℚ). -/
structure Interpolate where
  done : ℕ
  duration : ℕ
  start : ℚ
  «end» : ℚ
deriving DecidableEq

/-- `init_interpolate`: set the interpolator to the constant `value`. -/
def init_interpolate (value : ℚ) : Interpolate :=
  { done := 0, duration := 0, start := value, «end» := value }

/-- `lerp(start, end, done)` = `start + (end - start) * done`. -/
def lerp (start «end» done : ℚ) : ℚ := start + («end» - start) * done

/-- `get_interpolate`: if `done >= duration` return `end`, else
`lerp(start, end, done / duration)`.  Embedded as a pure function of the
interpolator state, mirroring that the C code only reads through the pointer. -/
def get_interpolate (i : Interpolate) : ℚ :=
  if i.duration ≤ i.done then i.«end»
  else lerp i.start i.«end» ((i.done : ℚ) / (i.duration : ℚ))

/-- `struct Channel`, field for field. -/
structure Channel where
  playing : Option MediaState
  playing_name : Option String
  playing_fadein : ℤ
  playing_tight : ℤ
  playing_start_ms : ℤ
  playing_relative_volume : ℚ
  queued : Option MediaState
  queued_name : Option String
  queued_fadein : ℤ
  queued_tight : ℤ
  queued_start_ms : ℤ
  queued_relative_volume : ℚ
  paused : ℤ
  mixer_volume : ℚ
  secondary_volume : Interpolate
  pos : ℤ
  fade : Interpolate
  stop_samples : ℤ
  event : ℤ
  pan : Interpolate
  video : ℤ
deriving DecidableEq

/-- `ms_to_samples(ms)` = `((long long) ms) * audio_spec.freq / 1000`, with C
truncating division. -/
def ms_to_samples (freq ms : ℤ) : ℤ := (ms * freq).tdiv 1000

/-- `samples_to_ms(samples)` = `((long long) samples) * 1000 / audio_spec.freq`. -/
def samples_to_ms (freq samples : ℤ) : ℤ := (samples * 1000).tdiv freq

/-- `start_stream(c, reset_fade)`: reset `pos` to 0 and, when `reset_fade` is
set, re-initialize the fade ramp 0.0 → 1.0 over
`ms_to_samples(playing_fadein)` samples and set `stop_samples = -1`. -/
def start_stream (freq : ℤ) (c : Channel) (reset_fade : Bool) : Channel :=
  let c := { c with pos := 0 }
  if reset_fade then
    { c with
      fade := { start := 0, «end» := 1, done := 0,
                duration := uint_of_int (ms_to_samples freq c.playing_fadein) },
      stop_samples := -1 }
  else c

/-- The end-of-stream branch of the mixer callback (the body of
`if (c->stop_samples == 0 || read_length == 0)`), restricted to its effect on
the channel fields: save `old_tight`, move every queued field into the playing
slot, clear the queued fields to their defaults, zero `old_tight` if the newly
promoted stream has a non-zero `playing_fadein`, then
`start_stream(c, !old_tight)`.  (The `post_event` call and the push of the old
playing handle onto the dying list are modelled in `channel_loop`.) -/
def promote (freq : ℤ) (c : Channel) : Channel :=
  let old_tight := c.playing_tight
  let c := { c with
    playing := c.queued,
    playing_name := c.queued_name,
    playing_fadein := c.queued_fadein,
    playing_tight := c.queued_tight,
    playing_start_ms := c.queued_start_ms,
    playing_relative_volume := c.queued_relative_volume,
    queued := none,
    queued_name := none,
    queued_fadein := 0,
    queued_tight := 0,
    queued_start_ms := 0,
    queued_relative_volume := 1 }
  let old_tight := if c.playing_fadein ≠ 0 then 0 else old_tight
  start_stream freq c (decide (old_tight = 0))

/-- `mix_sample`: convert both 16-bit inputs to floats by dividing by
`-MIN_SHORT = 32768` and add them to the accumulator entries.  The channel
argument is kept (unused) to mirror the C signature. -/
def mix_sample (c : Channel) (left_in right_in : ℤ) (left_out right_out : ℚ) :
    ℚ × ℚ :=
  (left_out + (left_in : ℚ) / 32768, right_out + (right_in : ℚ) / 32768)

/-- The state threaded through the callback's inner mixing loop for one
channel: the channel, the count `mixed` of frames already mixed this callback,
and the float accumulator `mix_buffer` (indexed by interleaved sample). -/
structure InnerState where
  c : Channel
  mixed : ℕ
  mix_buffer : ℕ → ℚ

/-- One iteration of the callback's inner mixing loop body: `mix_sample` the
shorts at indices `mixed * 2` and `mixed * 2 + 1` of `stream_buffer` into the
same indices of `mix_buffer`, decrement a positive `stop_samples`, and advance
`pos` and `mixed`. -/
def inner_loop_step (stream_buffer : ℕ → ℤ) (s : InnerState) : InnerState :=
  { c := { s.c with
      stop_samples :=
        if 0 < s.c.stop_samples then s.c.stop_samples - 1
        else s.c.stop_samples,
      pos := s.c.pos + 1 },
    mixed := s.mixed + 1,
    mix_buffer := fun i =>
      if i = 2 * s.mixed then
        (mix_sample s.c (stream_buffer (2 * s.mixed))
          (stream_buffer (2 * s.mixed + 1))
          (s.mix_buffer (2 * s.mixed))
          (s.mix_buffer (2 * s.mixed + 1))).1
      else if i = 2 * s.mixed + 1 then
        (mix_sample s.c (stream_buffer (2 * s.mixed))
          (stream_buffer (2 * s.mixed + 1))
          (s.mix_buffer (2 * s.mixed))
          (s.mix_buffer (2 * s.mixed + 1))).2
      else s.mix_buffer i }

/-- The callback's inner mixing loop
(`while (c->stop_samples && read_length) { ... }`), iterating
`inner_loop_step` while `stop_samples` is non-zero and decoded frames remain. -/
def inner_loop (stream_buffer : ℕ → ℤ) : ℕ → InnerState → InnerState
  | 0, s => s
  | read_length + 1, s =>
    if s.c.stop_samples = 0 then s
    else inner_loop stream_buffer read_length (inner_loop_step stream_buffer s)

/-- `media_read_audio(ms, buf, len)` writing into the start of the local
`stream_buffer`: deliver up to `maxFrames` frames of the decoder's next chunk,
returning the frames and the advanced decoder state.  An exhausted decoder
returns 0 frames (end of stream). -/
def media_read_audio (ms : MediaState) (maxFrames : ℕ) :
    List (ℤ × ℤ) × MediaState :=
  match ms with
  | [] => ([], [])
  | chunk :: rest =>
      (chunk.take maxFrames,
       if chunk.drop maxFrames = [] then rest else chunk.drop maxFrames :: rest)

/-- The effect of `media_read_audio` on the local `stream_buffer`: the decoded
frames are written starting at offset 0 (frame `j` occupies shorts `2*j` and
`2*j+1`); the rest of the buffer keeps its previous contents. -/
def write_frames (stream_buffer : ℕ → ℤ) (frames : List (ℤ × ℤ)) : ℕ → ℤ :=
  fun i =>
    if i / 2 < frames.length then
      (if i % 2 = 0 then (frames.getD (i / 2) (0, 0)).1
       else (frames.getD (i / 2) (0, 0)).2)
    else stream_buffer i

/-- The per-channel state of one callback invocation: channel, frames mixed so
far, the local `stream_buffer` and `mix_buffer`, and the process-wide dying
list (retired decoder handles). -/
structure CallbackState where
  c : Channel
  mixed : ℕ
  stream_buffer : ℕ → ℤ
  mix_buffer : ℕ → ℚ
  dying : List MediaState

/-- The callback's per-channel outer loop
(`while (mixed < length && c->playing)`), with explicit fuel: read up to
`length - mixed` frames from the playing stream into the start of
`stream_buffer`; on end of stream (`stop_samples == 0` or a 0-frame read) push
the playing handle onto the dying list and `promote`; otherwise run the inner
mixing loop. -/
def channel_loop (freq : ℤ) (length : ℕ) : ℕ → CallbackState → CallbackState
  | 0, s => s
  | fuel + 1, s =>
    match s.c.playing with
    | none => s
    | some ms =>
      if s.mixed < length then
        let rd := media_read_audio ms (length - s.mixed)
        if s.c.stop_samples = 0 ∨ rd.1.length = 0 then
          channel_loop freq length fuel
            { s with
              c := promote freq { s.c with playing := some rd.2 },
              dying := rd.2 :: s.dying }
        else
          let sb := write_frames s.stream_buffer rd.1
          let r := inner_loop sb rd.1.length
            { c := { s.c with playing := some rd.2 },
              mixed := s.mixed, mix_buffer := s.mix_buffer }
          channel_loop freq length fuel
            { c := r.c, mixed := r.mixed, stream_buffer := sb,
              mix_buffer := r.mix_buffer, dying := s.dying }
      else s

/-- The two sequential clamping `if`s of the callback's output-conversion
loop (`if (v > MAX_SHORT) v = MAX_SHORT; if (v < MIN_SHORT) v = MIN_SHORT;`),
flattened into one nested conditional: after the first `if` fires the second
cannot. -/
def clamp_short (x : ℤ) : ℤ :=
  if 32767 < x then 32767
  else if x < -32768 then -32768
  else x

/-- An output sample of the callback's final conversion loop: multiply the
accumulated float by `MAX_SHORT = 32767`, convert to int (truncation toward
zero), clamp into `[-32768, 32767]`. -/
def callback_output (mix_buffer : ℕ → ℚ) (i : ℕ) : ℤ :=
  clamp_short (truncToInt (mix_buffer i * 32767))

/-- Error codes (`SUCCESS`, `SDL_ERROR`, `SOUND_ERROR`, `RPS_ERROR`). -/
def SUCCESS : ℤ := 0

def SDL_ERROR : ℤ := -1

def SOUND_ERROR : ℤ := -2

def RPS_ERROR : ℤ := -3

/-- `RPS_play`, restricted to its effect on the channel, after a successful
`check_channel`.  `loaded` is the result of `load_stream` (`none` = failure).
Frees both slots (resetting the fields the C code resets there), then on a
successful load populates the playing slot, sets `paused`, and calls
`start_stream(c, 1)`. -/
def RPS_play_channel (freq : ℤ) (loaded : Option MediaState) (name : String)
    (fadein tight paused : ℤ) (start_s relative_volume : ℚ) (c : Channel) :
    Channel :=
  let c :=
    if c.playing.isSome then
      { c with playing := none, playing_name := none, playing_tight := 0,
               playing_start_ms := 0, playing_relative_volume := 1 }
    else c
  let c :=
    if c.queued.isSome then
      { c with queued := none, queued_name := none, queued_tight := 0,
               queued_start_ms := 0, queued_relative_volume := 1 }
    else c
  match loaded with
  | none => c
  | some ms =>
    let c := { c with
      playing := some ms,
      playing_name := some name,
      playing_fadein := fadein,
      playing_tight := tight,
      playing_start_ms := truncToInt (start_s * 1000),
      playing_relative_volume := relative_volume,
      paused := paused }
    start_stream freq c true

/-- `RPS_queue`, restricted to its effect on the channel: if nothing is
playing, delegate to `RPS_play` with `paused = 0`; otherwise free the queued
slot (the C code resets only the handle, name and tight flag there) and on a
successful load populate it. -/
def RPS_queue_channel (freq : ℤ) (loaded : Option MediaState) (name : String)
    (fadein tight : ℤ) (start_s relative_volume : ℚ) (c : Channel) : Channel :=
  if c.playing = none then
    RPS_play_channel freq loaded name fadein tight 0 start_s relative_volume c
  else
    let c :=
      if c.queued.isSome then
        { c with queued := none, queued_name := none, queued_tight := 0 }
      else c
    match loaded with
    | none => c
    | some ms =>
      { c with
        queued := some ms,
        queued_name := some name,
        queued_fadein := fadein,
        queued_tight := tight,
        queued_start_ms := truncToInt (start_s * 1000),
        queued_relative_volume := relative_volume }

/-- `RPS_stop`, restricted to its effect on the channel: free both slots,
resetting names, start times and relative volumes (the tight flags are not
touched by `RPS_stop`). -/
def RPS_stop_channel (c : Channel) : Channel :=
  let c :=
    if c.playing.isSome then
      { c with playing := none, playing_name := none, playing_start_ms := 0,
               playing_relative_volume := 1 }
    else c
  if c.queued.isSome then
    { c with queued := none, queued_name := none, queued_start_ms := 0,
             queued_relative_volume := 1 }
  else c

/-- `RPS_dequeue`: if a queued stream exists and (the playing stream is not
tight, or `even_tight` is set) free the queued slot, else clear
`queued_tight`; in either case `queued_start_ms` is then set to 0. -/
def RPS_dequeue_channel (even_tight : ℤ) (c : Channel) : Channel :=
  let c :=
    if c.queued.isSome ∧ (c.playing_tight = 0 ∨ even_tight ≠ 0) then
      { c with queued := none, queued_name := none }
    else
      { c with queued_tight := 0 }
  { c with queued_start_ms := 0 }

/-- `RPS_fadeout`: for `ms == 0` just set `stop_samples = 0`.  Otherwise the
assignments happen in the C order: `fade.done = 0`, then
`fade.duration = ms_to_samples(ms)`, then `fade.start = get_interpolate(&fade)`
(reading the already-modified interpolator), then `fade.end = 0`; finally
`stop_samples = ms_to_samples(ms)`, `queued_tight = 0`, and `playing_tight = 0`
when no queued stream exists. -/
def RPS_fadeout_channel (freq ms : ℤ) (c : Channel) : Channel :=
  if ms = 0 then { c with stop_samples := 0 }
  else
    let fade := { c.fade with done := 0 }
    let fade := { fade with duration := uint_of_int (ms_to_samples freq ms) }
    let fade := { fade with start := get_interpolate fade }
    let fade := { fade with «end» := 0 }
    let c := { c with
      fade := fade,
      stop_samples := ms_to_samples freq ms,
      queued_tight := 0 }
    if c.queued = none then { c with playing_tight := 0 } else c

/-- `RPS_set_pan`: capture the current pan value as the new ramp start (read
before `done` is reset), ramp to `pan` over `ms_to_samples(delay * 1000)`. -/
def RPS_set_pan_channel (freq : ℤ) (pan delay : ℚ) (c : Channel) : Channel :=
  let p := { c.pan with start := get_interpolate c.pan }
  let p := { p with «end» := pan }
  let p := { p with done := 0 }
  let p := { p with
    duration := uint_of_int (ms_to_samples freq (truncToInt (delay * 1000))) }
  { c with pan := p }

/-- `RPS_set_secondary_volume`: analogous to `RPS_set_pan`. -/
def RPS_set_secondary_volume_channel (freq : ℤ) (vol2 delay : ℚ)
    (c : Channel) : Channel :=
  let p := { c.secondary_volume with
    start := get_interpolate c.secondary_volume }
  let p := { p with «end» := vol2 }
  let p := { p with done := 0 }
  let p := { p with
    duration := uint_of_int (ms_to_samples freq (truncToInt (delay * 1000))) }
  { c with secondary_volume := p }

/-- The control entry points of the API that act on one channel, with the
arguments each C function receives (for `play`/`queue`, `loaded` stands for
the result of `load_stream`). -/
inductive ControlOp where
  | play (loaded : Option MediaState) (name : String)
      (fadein tight paused : ℤ) (start_s relative_volume : ℚ)
  | queue (loaded : Option MediaState) (name : String)
      (fadein tight : ℤ) (start_s relative_volume : ℚ)
  | stop
  | dequeue (even_tight : ℤ)
  | fadeout (ms : ℤ)
  | pause (p : ℤ)
  | set_volume (v : ℚ)
  | get_volume
  | set_pan (pan delay : ℚ)
  | set_secondary_volume (vol2 delay : ℚ)
  | set_endevent (e : ℤ)
  | set_video (v : ℤ)
  | get_pos
  | get_duration
  | queue_depth
  | playing_name
  | read_video
  | video_ready

/-- The effect of each control entry point on the channel (after a successful
`check_channel`).  The query entry points do not mutate the channel. -/
def apply_op (freq : ℤ) (op : ControlOp) (c : Channel) : Channel :=
  match op with
  | .play loaded name fadein tight paused start_s rel =>
      RPS_play_channel freq loaded name fadein tight paused start_s rel c
  | .queue loaded name fadein tight start_s rel =>
      RPS_queue_channel freq loaded name fadein tight start_s rel c
  | .stop => RPS_stop_channel c
  | .dequeue even_tight => RPS_dequeue_channel even_tight c
  | .fadeout ms => RPS_fadeout_channel freq ms c
  | .pause p => { c with paused := p }
  | .set_volume v => { c with mixer_volume := v }
  | .get_volume => c
  | .set_pan pan delay => RPS_set_pan_channel freq pan delay c
  | .set_secondary_volume vol2 delay =>
      RPS_set_secondary_volume_channel freq vol2 delay c
  | .set_endevent e => { c with event := e }
  | .set_video v => { c with video := v }
  | .get_pos => c
  | .get_duration => c
  | .queue_depth => c
  | .playing_name => c
  | .read_video => c
  | .video_ready => c

/-- The write each control entry point performs on the global `RPS_error` when
the channel check succeeds: `some e` when the function executes `error(e)`
before returning, `none` when it returns without setting the error code.
Mirrors the `error(...)` statements of each C function: `RPS_play` and
`RPS_queue` report `SOUND_ERROR` when `load_stream` fails and `SUCCESS`
otherwise; every other entry point reports `SUCCESS` — except `RPS_set_video`,
whose body contains no `error(...)` call at all. -/
def apply_op_error (op : ControlOp) (c : Channel) : Option ℤ :=
  match op with
  | .play loaded _ _ _ _ _ _ =>
      if loaded = none then some SOUND_ERROR else some SUCCESS
  | .queue loaded _ _ _ _ _ =>
      if c.playing = none then
        (if loaded = none then some SOUND_ERROR else some SUCCESS)
      else
        (if loaded = none then some SOUND_ERROR else some SUCCESS)
  | .set_video _ => none
  | _ => some SUCCESS

/-- Does the operation correspond to the `RPS_set_video` entry point? -/
def is_set_video : ControlOp → Bool
  | .set_video _ => true
  | _ => false

/-- The invariant of claim C7: a queued stream exists only when a playing
stream exists. -/
def queued_implies_playing (c : Channel) : Prop :=
  c.queued.isSome → c.playing.isSome

/-- A freshly allocated channel, as `check_channel` initializes it: all fields
zeroed, then `mixer_volume = 1.0`, `paused = 1`, `event = 0`, fade and
secondary volume interpolators constant 1.0, pan constant 0.0. -/
def base_channel : Channel :=
  { playing := none, playing_name := none, playing_fadein := 0,
    playing_tight := 0, playing_start_ms := 0, playing_relative_volume := 0,
    queued := none, queued_name := none, queued_fadein := 0, queued_tight := 0,
    queued_start_ms := 0, queued_relative_volume := 0, paused := 1,
    mixer_volume := 1, secondary_volume := init_interpolate 1, pos := 0,
    fade := init_interpolate 1, stop_samples := 0, event := 0,
    pan := init_interpolate 0, video := 0 }

/-- A channel mid-playback used by several concrete evaluations: the fade
state is the one `RPS_play` with `fadein = 0` leaves behind
(`start_stream` sets fade = ramp 0→1 over `ms_to_samples(0) = 0` samples, so
`get_interpolate` reports the end value 1.0), and `stop_samples = -1`. -/
def chan_fadeout_ex : Channel :=
  { base_channel with
    playing := some [[(1, 1)]],
    playing_name := some "a",
    fade := { done := 0, duration := 0, start := 0, «end» := 1 },
    stop_samples := -1, paused := 0 }

/-- A channel with a tight playing stream and an armed queued stream whose
`queued_start_ms` is non-zero. -/
def chan_dequeue_ex : Channel :=
  { base_channel with
    playing := some [[(1, 1)]],
    playing_name := some "a", playing_tight := 1,
    queued := some [[(2, 2)]], queued_name := some "b",
    queued_tight := 1, queued_start_ms := 5000,
    stop_samples := -1, paused := 0 }

/-- A channel with a non-tight playing stream and an armed queued stream,
used to evaluate the promotion logic. -/
def chan_promote_ex : Channel :=
  { base_channel with
    playing := some [],
    playing_name := some "a",
    queued := some [[(3, 4)]], queued_name := some "b",
    queued_fadein := 0, queued_tight := 0, queued_start_ms := 250,
    queued_relative_volume := 1,
    stop_samples := -1, paused := 0 }

/-- The channel of the mixing-state examples: playing, not paused, no
scheduled stop, mid-ramp fade. -/
def chan_mix_ex : Channel :=
  { base_channel with
    playing := some [],
    fade := { done := 0, duration := 100, start := 0, «end» := 1 },
    stop_samples := -1, paused := 0 }

/-- A mixing state over `chan_mix_ex` with no frames mixed yet. -/
def inner_ex_state : InnerState :=
  { c := chan_mix_ex, mixed := 0, mix_buffer := fun _ => 0 }

/-- A mixing state in which one frame has already been mixed this callback
(`mixed = 1`), as happens on the second `media_read_audio` of an invocation. -/
def inner_second_read_state : InnerState :=
  { c := chan_mix_ex, mixed := 1, mix_buffer := fun _ => 0 }

/-!  ## Helper lemmas about the inner mixing loop  -/

lemma inner_loop_step_mixed (sb : ℕ → ℤ) (s : InnerState) :
    (inner_loop_step sb s).mixed = s.mixed + 1 := rfl

lemma inner_loop_step_stop (sb : ℕ → ℤ) (s : InnerState) :
    (inner_loop_step sb s).c.stop_samples =
      if 0 < s.c.stop_samples then s.c.stop_samples - 1
      else s.c.stop_samples := rfl

lemma inner_loop_step_mb (sb : ℕ → ℤ) (s : InnerState) (i : ℕ) :
    (inner_loop_step sb s).mix_buffer i =
      if i = 2 * s.mixed then s.mix_buffer i + (sb i : ℚ) / 32768
      else if i = 2 * s.mixed + 1 then s.mix_buffer i + (sb i : ℚ) / 32768
      else s.mix_buffer i := by
  simp only [inner_loop_step, mix_sample]
  by_cases h1 : i = 2 * s.mixed
  · subst h1; simp
  · rw [if_neg h1, if_neg h1]
    by_cases h2 : i = 2 * s.mixed + 1
    · subst h2; simp
    · rw [if_neg h2, if_neg h2]

lemma inner_loop_step_mb_other (sb : ℕ → ℤ) (s : InnerState) (i : ℕ)
    (h1 : i ≠ 2 * s.mixed) (h2 : i ≠ 2 * s.mixed + 1) :
    (inner_loop_step sb s).mix_buffer i = s.mix_buffer i := by
  rw [inner_loop_step_mb, if_neg h1, if_neg h2]

lemma inner_loop_mixed_le (sb : ℕ → ℤ) :
    ∀ (r : ℕ) (s : InnerState), s.mixed ≤ (inner_loop sb r s).mixed := by
  intro r
  induction r with
  | zero => intro s; exact le_refl _
  | succ n ih =>
    intro s
    rw [inner_loop]
    by_cases hs : s.c.stop_samples = 0
    · rw [if_pos hs]
    · rw [if_neg hs]
      have h := ih (inner_loop_step sb s)
      rw [inner_loop_step_mixed] at h
      omega

lemma inner_loop_keeps_interpolators (sb : ℕ → ℤ) :
    ∀ (r : ℕ) (s : InnerState),
      (inner_loop sb r s).c.fade = s.c.fade ∧
      (inner_loop sb r s).c.pan = s.c.pan ∧
      (inner_loop sb r s).c.secondary_volume = s.c.secondary_volume := by
  intro r
  induction r with
  | zero => intro s; exact ⟨rfl, rfl, rfl⟩
  | succ n ih =>
    intro s
    rw [inner_loop]
    by_cases hs : s.c.stop_samples = 0
    · rw [if_pos hs]; exact ⟨rfl, rfl, rfl⟩
    · rw [if_neg hs]; exact ih (inner_loop_step sb s)

lemma inner_loop_mixed_exact (sb : ℕ → ℤ) :
    ∀ (r : ℕ) (s : InnerState), s.c.stop_samples < 0 →
      (inner_loop sb r s).mixed = s.mixed + r := by
  intro r
  induction r with
  | zero => intro s _; rfl
  | succ n ih =>
    intro s h
    rw [inner_loop, if_neg (by omega)]
    have hst : (inner_loop_step sb s).c.stop_samples < 0 := by
      rw [inner_loop_step_stop, if_neg (by omega)]; exact h
    rw [ih (inner_loop_step sb s) hst, inner_loop_step_mixed]
    omega

lemma inner_loop_buffer_lo (sb : ℕ → ℤ) :
    ∀ (r : ℕ) (s : InnerState) (i : ℕ), i < 2 * s.mixed →
      (inner_loop sb r s).mix_buffer i = s.mix_buffer i := by
  intro r
  induction r with
  | zero => intro s i _; rfl
  | succ n ih =>
    intro s i h
    rw [inner_loop]
    by_cases hs : s.c.stop_samples = 0
    · rw [if_pos hs]
    · rw [if_neg hs,
        ih (inner_loop_step sb s) i (by rw [inner_loop_step_mixed]; omega)]
      exact inner_loop_step_mb_other sb s i (by omega) (by omega)

lemma inner_loop_buffer_mid (sb : ℕ → ℤ) :
    ∀ (r : ℕ) (s : InnerState) (i : ℕ),
      2 * s.mixed ≤ i → i < 2 * (inner_loop sb r s).mixed →
      (inner_loop sb r s).mix_buffer i = s.mix_buffer i + (sb i : ℚ) / 32768 := by
  intro r
  induction r with
  | zero =>
    intro s i h1 h2
    rw [inner_loop] at h2
    omega
  | succ n ih =>
    intro s i h1 h2
    rw [inner_loop] at h2 ⊢
    by_cases hs : s.c.stop_samples = 0
    · rw [if_pos hs] at h2 ⊢
      omega
    · rw [if_neg hs] at h2 ⊢
      rcases Nat.lt_or_ge i (2 * s.mixed + 2) with hi | hi
      · rw [inner_loop_buffer_lo sb n (inner_loop_step sb s) i
          (by rw [inner_loop_step_mixed]; omega)]
        rw [inner_loop_step_mb]
        rcases (by omega : i = 2 * s.mixed ∨ i = 2 * s.mixed + 1) with hc | hc
        · rw [if_pos hc]
        · rw [if_neg (by omega), if_pos hc]
      · rw [ih (inner_loop_step sb s) i (by rw [inner_loop_step_mixed]; omega) h2,
          inner_loop_step_mb_other sb s i (by omega) (by omega)]

lemma inner_loop_mb_congr (sb : ℕ → ℤ) :
    ∀ (r : ℕ) (s₁ s₂ : InnerState),
      s₁.c.stop_samples = s₂.c.stop_samples → s₁.mixed = s₂.mixed →
      s₁.mix_buffer = s₂.mix_buffer →
      (inner_loop sb r s₁).mix_buffer = (inner_loop sb r s₂).mix_buffer := by
  intro r
  induction r with
  | zero => intro s₁ s₂ _ _ h3; exact h3
  | succ n ih =>
    intro s₁ s₂ h1 h2 h3
    rw [inner_loop, inner_loop]
    by_cases hs : s₁.c.stop_samples = 0
    · rw [if_pos hs, if_pos (h1 ▸ hs)]
      exact h3
    · rw [if_neg hs, if_neg (fun hc => hs (h1.trans hc))]
      apply ih
      · rw [inner_loop_step_stop, inner_loop_step_stop, h1]
      · rw [inner_loop_step_mixed, inner_loop_step_mixed, h2]
      · funext i
        rw [inner_loop_step_mb, inner_loop_step_mb, h2, h3]

/-!  ## Claim theorems  -/

/-- C6: for every interpolator state, `get_interpolate` returns `end` when
`done >= duration` (in particular whenever `duration = 0`), and otherwise
returns `start + (end - start) * done / duration`.  The embedding is a pure
function of the interpolator, mirroring that the C `get_interpolate` only
reads `*i` and in particular never changes `done`. -/
theorem get_interpolate_spec (i : Interpolate) :
    (i.duration ≤ i.done → get_interpolate i = i.«end») ∧
    (i.done < i.duration →
      get_interpolate i =
        i.start + (i.«end» - i.start) * ((i.done : ℚ) / (i.duration : ℚ))) ∧
    (i.duration = 0 → get_interpolate i = i.«end») := by
  refine ⟨fun h => ?_, fun h => ?_, fun h => ?_⟩
  · rw [get_interpolate, if_pos h]
  · rw [get_interpolate, if_neg (by omega)]; rfl
  · rw [get_interpolate, if_pos (by omega)]

/-- Witness for C6: concrete instances of all three cases. -/
theorem get_interpolate_spec_witness :
    ((10 : ℕ) ≤ 12 ∧
      get_interpolate { done := 12, duration := 10, start := 3, «end» := 7 } = 7) ∧
    ((5 : ℕ) < 10 ∧
      get_interpolate { done := 5, duration := 10, start := 0, «end» := 1 } =
        0 + (1 - 0) * (((5 : ℕ) : ℚ) / ((10 : ℕ) : ℚ))) ∧
    ((0 : ℕ) = 0 ∧
      get_interpolate { done := 4, duration := 0, start := 2, «end» := 9 } = 9) :=
  ⟨⟨by norm_num,
    (get_interpolate_spec { done := 12, duration := 10, start := 3, «end» := 7 }).1
      (by norm_num)⟩,
   ⟨by norm_num,
    (get_interpolate_spec { done := 5, duration := 10, start := 0, «end» := 1 }).2.1
      (by norm_num)⟩,
   ⟨rfl,
    (get_interpolate_spec { done := 4, duration := 0, start := 2, «end» := 9 }).2.2
      rfl⟩⟩

/-- C1: promotion at end of stream moves every queued field into the playing
slot, clears the queued fields to their defaults, resets `pos` to 0, and
re-initializes the fade interpolator to ramp 0.0→1.0 over
`ms_to_samples(playing_fadein)` (as the C unsigned `duration`) together with
`stop_samples := -1` exactly when the old playing stream was not tight or the
newly promoted stream's fade-in is non-zero; otherwise the fade interpolator
and `stop_samples` are left unchanged. -/
theorem promotion_end_of_stream_spec (freq : ℤ) (c : Channel) :
    (promote freq c).playing = c.queued ∧
    (promote freq c).playing_name = c.queued_name ∧
    (promote freq c).playing_fadein = c.queued_fadein ∧
    (promote freq c).playing_tight = c.queued_tight ∧
    (promote freq c).playing_start_ms = c.queued_start_ms ∧
    (promote freq c).playing_relative_volume = c.queued_relative_volume ∧
    (promote freq c).queued = none ∧
    (promote freq c).queued_name = none ∧
    (promote freq c).queued_fadein = 0 ∧
    (promote freq c).queued_tight = 0 ∧
    (promote freq c).queued_start_ms = 0 ∧
    (promote freq c).queued_relative_volume = 1 ∧
    (promote freq c).pos = 0 ∧
    (if c.playing_tight = 0 ∨ c.queued_fadein ≠ 0 then
        (promote freq c).fade =
          { done := 0, duration := uint_of_int (ms_to_samples freq c.queued_fadein),
            start := 0, «end» := 1 } ∧
        (promote freq c).stop_samples = -1
      else
        (promote freq c).fade = c.fade ∧
        (promote freq c).stop_samples = c.stop_samples) := by
  by_cases hq : c.queued_fadein = 0 <;> by_cases hp : c.playing_tight = 0 <;>
    simp [promote, start_stream, hq, hp]

/-- Witness for C1: the promotion spec evaluated on a concrete channel with a
non-tight playing stream and an armed queued stream. -/
theorem promotion_end_of_stream_witness :
    (promote 44100 chan_promote_ex).playing = chan_promote_ex.queued ∧
    (promote 44100 chan_promote_ex).queued = none :=
  ⟨(promotion_end_of_stream_spec 44100 chan_promote_ex).1,
   (promotion_end_of_stream_spec 44100 chan_promote_ex).2.2.2.2.2.2.1⟩

/-- C2 (code bug): `RPS_fadeout(ch, 1000)` at 44100 Hz on a channel whose fade
interpolator currently reports 1.0 (the state `RPS_play` with `fadein = 0`
leaves behind: `done = 0, duration = 0, start = 0, end = 1`).  The claim and
the spec say the ramp is seeded from the current value, i.e. `fade.start`
should become 1.0; the code zeroes `fade.done` and overwrites `fade.duration`
*before* reading `get_interpolate(&c->fade)`, so `fade.start` becomes the
stale `start` value 0.0.  (`RPS_set_pan` and `RPS_set_secondary_volume` read
`get_interpolate` before resetting `done`, which is the intended pattern.) -/
theorem fadeout_stale_seed_eval :
    get_interpolate chan_fadeout_ex.fade = 1 ∧
    (RPS_fadeout_channel 44100 1000 chan_fadeout_ex).fade =
      { done := 0, duration := 44100, start := 0, «end» := 0 } ∧
    (RPS_fadeout_channel 44100 1000 chan_fadeout_ex).fade.start ≠
      get_interpolate chan_fadeout_ex.fade ∧
    (RPS_fadeout_channel 44100 1000 chan_fadeout_ex).stop_samples = 44100 ∧
    (RPS_fadeout_channel 44100 1000 chan_fadeout_ex).queued_tight = 0 ∧
    (RPS_fadeout_channel 44100 1000 chan_fadeout_ex).playing_tight = 0 := by
  have hms : ms_to_samples 44100 1000 = 44100 := by decide
  have hget : get_interpolate chan_fadeout_ex.fade = 1 := by
    simp [chan_fadeout_ex, base_channel, get_interpolate]
  have hseed :
      get_interpolate
        { done := 0, duration := 44100, start := (0 : ℚ), «end» := (1 : ℚ) }
        = 0 := by
    simp [get_interpolate, lerp]
  have hget1 :
      get_interpolate
        { done := 0, duration := 0, start := (0 : ℚ), «end» := (1 : ℚ) }
        = 1 := by
    simp [get_interpolate]
  refine ⟨hget, ?_, ?_, ?_, ?_, ?_⟩ <;>
    simp [RPS_fadeout_channel, chan_fadeout_ex, base_channel, hms, hseed,
      hget1, uint_of_int]

/-- C3: every frame accumulated by the inner mixing loop adds exactly the
decoder's 16-bit sample divided by 32768 to the float accumulator entry,
and the accumulated values are independent of `mixer_volume`,
`secondary_volume`, `fade`, `pan` and `playing_relative_volume`. -/
theorem mix_accumulates_raw_samples (sb : ℕ → ℤ) (r : ℕ) (s : InnerState)
    (i : ℕ) :
    (2 * s.mixed ≤ i → i < 2 * (inner_loop sb r s).mixed →
      (inner_loop sb r s).mix_buffer i = s.mix_buffer i + (sb i : ℚ) / 32768) ∧
    (∀ (v rv : ℚ) (fd pn sv : Interpolate),
      (inner_loop sb r
        { s with c := { s.c with
            mixer_volume := v, playing_relative_volume := rv,
            fade := fd, pan := pn, secondary_volume := sv } }).mix_buffer =
      (inner_loop sb r s).mix_buffer) := by
  constructor
  · exact fun h1 h2 => inner_loop_buffer_mid sb r s i h1 h2
  · intro v rv fd pn sv
    exact inner_loop_mb_congr sb r _ s rfl rfl rfl

/-- Witness for C3: one frame mixed from a buffer holding the constant 7. -/
theorem mix_accumulates_raw_samples_witness :
    2 * inner_ex_state.mixed ≤ 0 ∧
    0 < 2 * (inner_loop (fun _ => 7) 1 inner_ex_state).mixed ∧
    (inner_loop (fun _ => 7) 1 inner_ex_state).mix_buffer 0 =
      inner_ex_state.mix_buffer 0 + ((7 : ℤ) : ℚ) / 32768 :=
  ⟨by decide, by decide,
   (mix_accumulates_raw_samples (fun _ => 7) 1 inner_ex_state 0).1
     (by decide) (by decide)⟩

/-- C4 (counterexample): the inner mixing loop mixes three frames
(`mixed` goes from 0 to 3) on a channel whose fade interpolator is mid-ramp,
yet `fade.done` stays 0 — it is not advanced by one per mixed sample-frame as
the claim states. -/
theorem fade_done_not_advanced_cx :
    (inner_loop (fun _ => 0) 3 inner_ex_state).mixed = 3 ∧
    (inner_loop (fun _ => 0) 3 inner_ex_state).c.fade.done = 0 ∧
    (inner_loop (fun _ => 0) 3 inner_ex_state).c.fade.done ≠
      inner_ex_state.c.fade.done + 3 := by
  refine ⟨?_, ?_, ?_⟩ <;> decide

/-- C4 (amended): the mixer's inner loop advances no interpolator's `done`
counter; the fade, pan and secondary-volume interpolators are left entirely
unchanged by mixing, so a fade ramp does not progress as frames are
produced. -/
theorem mixing_leaves_interpolators_unchanged (sb : ℕ → ℤ) (r : ℕ)
    (s : InnerState) :
    (inner_loop sb r s).c.fade = s.c.fade ∧
    (inner_loop sb r s).c.pan = s.c.pan ∧
    (inner_loop sb r s).c.secondary_volume = s.c.secondary_volume :=
  inner_loop_keeps_interpolators sb r s

/-- C5 (counterexample): an accumulated value of exactly -1.0 is written as
-32767, not -32768 — the conversion multiplies by `MAX_SHORT = 32767`, so the
claim "every value ≤ -1.0 is written as -32768" fails at -1.0. -/
theorem clipping_at_minus_one_cx :
    callback_output (fun _ => -1) 0 = -32767 ∧
    callback_output (fun _ => -1) 0 ≠ -32768 := by
  have hq : ((fun _ : ℕ => (-1 : ℚ)) 0) * 32767 = ((-32767 : ℤ) : ℚ) := by
    norm_num
  have h : callback_output (fun _ => -1) 0 = -32767 := by
    rw [callback_output, hq, truncToInt, if_neg (by norm_num), Int.ceil_intCast]
    decide
  exact ⟨h, by rw [h]; decide⟩

/-- C5 (amended): the final conversion saturates — every accumulated value
≥ 1.0 is written as 32767, every value ≤ -32768/32767 is written as -32768,
and every output sample lies in [-32768, 32767] (never wrap-around). -/
theorem output_saturation_spec (mix_buffer : ℕ → ℚ) (i : ℕ) :
    (1 ≤ mix_buffer i → callback_output mix_buffer i = 32767) ∧
    (mix_buffer i ≤ -(32768 / 32767 : ℚ) →
      callback_output mix_buffer i = -32768) ∧
    (-32768 ≤ callback_output mix_buffer i ∧
      callback_output mix_buffer i ≤ 32767) := by
  have hhi : ∀ x : ℤ, 32767 ≤ x → clamp_short x = 32767 := by
    intro x h; unfold clamp_short; split_ifs <;> omega
  have hlo : ∀ x : ℤ, x ≤ -32768 → clamp_short x = -32768 := by
    intro x h; unfold clamp_short; split_ifs <;> omega
  have hbounds : ∀ x : ℤ, -32768 ≤ clamp_short x ∧ clamp_short x ≤ 32767 := by
    intro x; unfold clamp_short; split_ifs <;> omega
  refine ⟨fun h => ?_, fun h => ?_, hbounds _⟩
  · have hmul : (32767 : ℚ) ≤ mix_buffer i * 32767 := by nlinarith
    have h0 : (0 : ℚ) ≤ mix_buffer i * 32767 := by linarith
    rw [callback_output, truncToInt, if_pos h0]
    exact hhi _ (by rw [Int.le_floor]; push_cast; exact hmul)
  · have hmul : mix_buffer i * 32767 ≤ (-32768 : ℚ) := by nlinarith
    have h0 : ¬ (0 : ℚ) ≤ mix_buffer i * 32767 := by linarith
    rw [callback_output, truncToInt, if_neg h0]
    exact hlo _ (by rw [Int.ceil_le]; push_cast; exact hmul)

/-- Witness for C5: the saturation spec applied at the concrete accumulated
values 2.0 (high side) and -2.0 (low side). -/
theorem output_saturation_witness :
    ((1 : ℚ) ≤ (fun _ : ℕ => (2 : ℚ)) 0 ∧
      callback_output (fun _ => 2) 0 = 32767) ∧
    (((fun _ : ℕ => (-2 : ℚ)) 0 ≤ -(32768 / 32767 : ℚ)) ∧
      callback_output (fun _ => -2) 0 = -32768) :=
  ⟨⟨by norm_num, (output_saturation_spec (fun _ => 2) 0).1 (by norm_num)⟩,
   ⟨by norm_num, (output_saturation_spec (fun _ => -2) 0).2.1 (by norm_num)⟩⟩

/-!  ## Helper lemmas about the control operations  -/

lemma RPS_play_channel_queued (freq : ℤ) (loaded : Option MediaState)
    (name : String) (fadein tight paused : ℤ) (start_s rel : ℚ) (c : Channel) :
    (RPS_play_channel freq loaded name fadein tight paused start_s rel c).queued
      = none := by
  cases loaded <;>
    simp only [RPS_play_channel, start_stream] <;>
    split_ifs <;>
    simp_all [Option.not_isSome_iff_eq_none]

lemma RPS_stop_channel_queued (c : Channel) :
    (RPS_stop_channel c).queued = none := by
  simp only [RPS_stop_channel]
  split_ifs <;> simp_all [Option.not_isSome_iff_eq_none]

lemma RPS_queue_channel_playing (freq : ℤ) (loaded : Option MediaState)
    (name : String) (fadein tight : ℤ) (start_s rel : ℚ) (c : Channel)
    (h : ¬ c.playing = none) :
    (RPS_queue_channel freq loaded name fadein tight start_s rel c).playing
      = c.playing := by
  cases loaded <;>
    simp only [RPS_queue_channel, if_neg h] <;>
    split_ifs <;>
    rfl

lemma queued_implies_playing_of_none (x : Channel) (h : x.queued = none) :
    queued_implies_playing x := by
  intro hq
  rw [h] at hq
  simp at hq

/-- C7: after every control operation (play, queue, stop, dequeue, fadeout,
pause, the volume/pan/event/video setters and the query entry points), a
non-empty queued slot implies a non-empty playing slot; and `RPS_queue` on a
channel with an empty playing slot is exactly `RPS_play` with `paused = 0`. -/
theorem queue_implies_playing_spec (freq : ℤ) (op : ControlOp) (c : Channel) :
    (queued_implies_playing c → queued_implies_playing (apply_op freq op c)) ∧
    (∀ (loaded : Option MediaState) (name : String) (fadein tight : ℤ)
        (start_s rel : ℚ), c.playing = none →
      apply_op freq (ControlOp.queue loaded name fadein tight start_s rel) c =
        apply_op freq (ControlOp.play loaded name fadein tight 0 start_s rel) c) := by
  constructor
  · intro hinv
    cases op with
    | play loaded name fadein tight paused start_s rel =>
        exact queued_implies_playing_of_none _
          (RPS_play_channel_queued freq loaded name fadein tight paused
            start_s rel c)
    | queue loaded name fadein tight start_s rel =>
        by_cases hp : c.playing = none
        · show queued_implies_playing
            (RPS_queue_channel freq loaded name fadein tight start_s rel c)
          rw [RPS_queue_channel, if_pos hp]
          exact queued_implies_playing_of_none _
            (RPS_play_channel_queued freq loaded name fadein tight 0
              start_s rel c)
        · intro _
          show (RPS_queue_channel freq loaded name fadein tight
            start_s rel c).playing.isSome
          rw [RPS_queue_channel_playing freq loaded name fadein tight
            start_s rel c hp]
          exact Option.ne_none_iff_isSome.mp hp
    | stop =>
        exact queued_implies_playing_of_none _ (RPS_stop_channel_queued c)
    | dequeue even_tight =>
        unfold queued_implies_playing at hinv ⊢
        simp only [apply_op, RPS_dequeue_channel]
        split_ifs with h
        · simp
        · simpa using hinv
    | fadeout ms =>
        unfold queued_implies_playing at hinv ⊢
        simp only [apply_op, RPS_fadeout_channel]
        split_ifs <;> simpa using hinv
    | pause p => exact hinv
    | set_volume v => exact hinv
    | get_volume => exact hinv
    | set_pan pan delay => exact hinv
    | set_secondary_volume vol2 delay => exact hinv
    | set_endevent e => exact hinv
    | set_video v => exact hinv
    | get_pos => exact hinv
    | get_duration => exact hinv
    | queue_depth => exact hinv
    | playing_name => exact hinv
    | read_video => exact hinv
    | video_ready => exact hinv
  · intro loaded name fadein tight start_s rel hp
    show RPS_queue_channel freq loaded name fadein tight start_s rel c = _
    rw [RPS_queue_channel, if_pos hp]
    rfl

/-- Witness for C7: the invariant holds across a concrete `RPS_stop` on a
channel with playing and queued streams, and a concrete `RPS_queue` on an
empty channel equals the corresponding `RPS_play`. -/
theorem queue_implies_playing_witness :
    (queued_implies_playing chan_dequeue_ex ∧
      queued_implies_playing (apply_op 44100 ControlOp.stop chan_dequeue_ex)) ∧
    (base_channel.playing = none ∧
      apply_op 44100 (ControlOp.queue (some [[(1, 1)]]) "a" 0 0 0 1)
          base_channel =
        apply_op 44100 (ControlOp.play (some [[(1, 1)]]) "a" 0 0 0 0 1)
          base_channel) :=
  ⟨⟨fun _ => rfl,
    (queue_implies_playing_spec 44100 ControlOp.stop chan_dequeue_ex).1
      (fun _ => rfl)⟩,
   ⟨rfl,
    (queue_implies_playing_spec 44100 ControlOp.stop base_channel).2
      (some [[(1, 1)]]) "a" 0 0 0 1 rfl⟩⟩

/-- C8 (counterexample): `RPS_set_video` performs no write to `RPS_error` on
its happy path — with a prior error of `SOUND_ERROR` still stored, the stale
code remains after the call instead of `SUCCESS`. -/
theorem set_video_error_not_set_cx :
    apply_op_error (ControlOp.set_video 1) base_channel = none ∧
    (apply_op_error (ControlOp.set_video 1) base_channel).getD SOUND_ERROR ≠
      SUCCESS :=
  ⟨rfl, by decide⟩

/-- C8 (amended): every control entry point except `RPS_set_video` sets the
process-wide error code on completion (`SUCCESS` on the happy path, an error
code on failure); `RPS_set_video` performs no write on its happy path. -/
theorem error_code_policy_spec (op : ControlOp) (c : Channel) :
    (is_set_video op = false → (apply_op_error op c).isSome = true) ∧
    (is_set_video op = true → apply_op_error op c = none) := by
  cases op <;> refine ⟨fun h => ?_, fun h => ?_⟩ <;>
    first
      | rfl
      | (simp only [apply_op_error]; split_ifs <;> rfl)
      | simp [is_set_video] at h

/-- Witness for C8: `RPS_stop` (which is not `RPS_set_video`) writes the
error code. -/
theorem error_code_policy_witness :
    is_set_video ControlOp.stop = false ∧
    (apply_op_error ControlOp.stop base_channel).isSome = true :=
  ⟨rfl, (error_code_policy_spec ControlOp.stop base_channel).1 rfl⟩

/-- C9 (counterexample): on a channel with a queued stream, a tight playing
stream and `even_tight = 0`, `RPS_dequeue` does *not* leave `queued_start_ms`
unchanged — the C code zeroes it unconditionally after the if/else. -/
theorem dequeue_clears_start_ms_cx :
    chan_dequeue_ex.queued.isSome = true ∧
    chan_dequeue_ex.playing_tight = 1 ∧
    chan_dequeue_ex.queued_start_ms = 5000 ∧
    (RPS_dequeue_channel 0 chan_dequeue_ex).queued_start_ms = 0 ∧
    (RPS_dequeue_channel 0 chan_dequeue_ex).queued_start_ms ≠
      chan_dequeue_ex.queued_start_ms := by
  refine ⟨rfl, rfl, rfl, rfl, by decide⟩

/-- C9 (amended): with a queued stream present, a tight playing stream and
`even_tight = 0`, `RPS_dequeue` clears `queued_tight` *and* zeroes
`queued_start_ms`; every other channel field (including the queued stream
handle and name) is left unchanged. -/
theorem dequeue_tight_frame_spec (c : Channel) (even_tight : ℤ)
    (h1 : c.queued.isSome = true) (h2 : c.playing_tight ≠ 0)
    (h3 : even_tight = 0) :
    RPS_dequeue_channel even_tight c =
      { c with queued_tight := 0, queued_start_ms := 0 } := by
  rw [RPS_dequeue_channel]
  rw [if_neg]
  rintro ⟨-, hb⟩
  rcases hb with hb | hb
  · exact h2 hb
  · exact hb h3

/-- Witness for C9: the amended dequeue frame condition on the concrete
channel `chan_dequeue_ex`. -/
theorem dequeue_tight_frame_witness :
    chan_dequeue_ex.queued.isSome = true ∧
    chan_dequeue_ex.playing_tight ≠ 0 ∧
    (0 : ℤ) = 0 ∧
    RPS_dequeue_channel 0 chan_dequeue_ex =
      { chan_dequeue_ex with queued_tight := 0, queued_start_ms := 0 } :=
  ⟨rfl, by decide, rfl,
   dequeue_tight_frame_spec chan_dequeue_ex 0 rfl (by decide) rfl⟩

/-!  ## Helper lemmas about the stream buffer writes  -/

lemma write_frames_left (sb : ℕ → ℤ) (frames : List (ℤ × ℤ)) (j : ℕ)
    (h : j < frames.length) :
    write_frames sb frames (2 * j) = (frames.getD j (0, 0)).1 := by
  have h2 : 2 * j / 2 = j := by omega
  have h3 : (2 * j) % 2 = 0 := by omega
  simp only [write_frames, h2, h3, if_pos h]
  simp

lemma write_frames_right (sb : ℕ → ℤ) (frames : List (ℤ × ℤ)) (j : ℕ)
    (h : j < frames.length) :
    write_frames sb frames (2 * j + 1) = (frames.getD j (0, 0)).2 := by
  have h2 : (2 * j + 1) / 2 = j := by omega
  have h3 : (2 * j + 1) % 2 = 1 := by omega
  simp only [write_frames, h2, h3, if_pos h]
  simp

lemma write_frames_beyond (sb : ℕ → ℤ) (frames : List (ℤ × ℤ)) (i : ℕ)
    (h : frames.length ≤ i / 2) :
    write_frames sb frames i = sb i := by
  simp only [write_frames]
  rw [if_neg (by omega)]

/-- C10: in the embedded mixing pass, `media_read_audio` writes decoded frame
`j` at shorts `2j`/`2j+1` of `stream_buffer` (offset 0), but the inner loop
accumulates the `j`-th frame of the pass from index `2*(mixed+j)`; the
accumulated value equals the decoder output for frame `j` when `mixed = 0` at
the time of the read, and when the read position falls beyond the frames just
written (`mixed + j ≥ read_length`) it picks up stale pre-existing buffer
contents instead. -/
theorem read_offset_mismatch_spec (sb0 : ℕ → ℤ) (frames : List (ℤ × ℤ))
    (s : InnerState) (j : ℕ) (hstop : s.c.stop_samples < 0)
    (hj : j < frames.length) :
    (write_frames sb0 frames (2 * j) = (frames.getD j (0, 0)).1 ∧
     write_frames sb0 frames (2 * j + 1) = (frames.getD j (0, 0)).2) ∧
    (inner_loop (write_frames sb0 frames) frames.length s).mix_buffer
        (2 * (s.mixed + j)) =
      s.mix_buffer (2 * (s.mixed + j)) +
        ((write_frames sb0 frames (2 * (s.mixed + j)) : ℤ) : ℚ) / 32768 ∧
    (s.mixed = 0 →
      (inner_loop (write_frames sb0 frames) frames.length s).mix_buffer (2 * j) =
        s.mix_buffer (2 * j) + (((frames.getD j (0, 0)).1 : ℤ) : ℚ) / 32768) ∧
    (frames.length ≤ s.mixed + j →
      (inner_loop (write_frames sb0 frames) frames.length s).mix_buffer
          (2 * (s.mixed + j)) =
        s.mix_buffer (2 * (s.mixed + j)) + (sb0 (2 * (s.mixed + j)) : ℚ) / 32768) := by
  have hmixed : (inner_loop (write_frames sb0 frames) frames.length s).mixed =
      s.mixed + frames.length :=
    inner_loop_mixed_exact (write_frames sb0 frames) frames.length s hstop
  have hmid : (inner_loop (write_frames sb0 frames) frames.length s).mix_buffer
      (2 * (s.mixed + j)) =
      s.mix_buffer (2 * (s.mixed + j)) +
        ((write_frames sb0 frames (2 * (s.mixed + j)) : ℤ) : ℚ) / 32768 :=
    inner_loop_buffer_mid (write_frames sb0 frames) frames.length s
      (2 * (s.mixed + j)) (by omega) (by omega)
  refine ⟨⟨write_frames_left sb0 frames j hj, write_frames_right sb0 frames j hj⟩,
    hmid, fun h0 => ?_, fun hge => ?_⟩
  · have := hmid
    rw [h0] at this
    simpa [write_frames_left sb0 frames j hj] using this
  · rw [hmid, write_frames_beyond sb0 frames (2 * (s.mixed + j)) (by omega)]

/-- Witness for C10: a second read of one frame `(100, 200)` with `mixed = 1`
accumulates the stale buffer value 5, not the decoder's 100. -/
theorem read_offset_mismatch_witness :
    inner_second_read_state.c.stop_samples < 0 ∧
    0 < [((100 : ℤ), (200 : ℤ))].length ∧
    [((100 : ℤ), (200 : ℤ))].length ≤ inner_second_read_state.mixed + 0 ∧
    (inner_loop (write_frames (fun _ => 5) [(100, 200)])
        [((100 : ℤ), (200 : ℤ))].length inner_second_read_state).mix_buffer
        (2 * (inner_second_read_state.mixed + 0)) =
      inner_second_read_state.mix_buffer
          (2 * (inner_second_read_state.mixed + 0)) +
        ((5 : ℤ) : ℚ) / 32768 :=
  ⟨by decide, by decide, by decide,
   (read_offset_mismatch_spec (fun _ => 5) [(100, 200)]
     inner_second_read_state 0 (by decide) (by decide)).2.2.2 (by decide)⟩
